import Mathlib

/-!
Shallow embedding of the `cache_field` crate (files `src/lib.rs` and `src/storage.rs`).

Token streams are modelled as plain strings, rendered with the spacing that
`proc_macro2::TokenStream::to_string()` / `quote!` would produce (one space
between tokens).  The process-wide registry (`static STORAGE`, a
`Mutex<HashMap<TypeAsString, Value>>`) is modelled as an association list that
every operation threads explicitly; `HashMap::insert` replaces an existing
binding and `HashMap::remove` deletes it.  Fallible functions return
`Except Err` paired with the registry state after the call, mirroring the fact
that the proc-macro entry points leave the global registry untouched when they
return a compile error.
-/

namespace StructCacheField

/-- Model of a `syn::PathSegment`: an identifier together with the optional
generic-argument tokens attached to it (`none` models `PathArguments::None`). -/
structure PathSeg where
  ident : String
  arguments : Option String
deriving DecidableEq

/-- Model of `syn::Type`, restricted to the distinction `register_cache_fields`
makes: a `Type::Path` with its segments, or any other type shape. -/
inductive SynType where
  | path (segments : List PathSeg)
  | nonPath (tokens : String)
deriving DecidableEq

/-- The three kinds of `syn::GenericParam`. -/
inductive ParamKind where
  | lifetimeParam
  | constParam
  | typeParam
deriving DecidableEq

/-- Model of one `syn::GenericParam`: its kind, the bare identifier printed by
`TypeGenerics` (`split_for_impl().1`-style printing), and the full token string
of the parameter as written (bounds and defaults included). -/
structure GenericParam where
  kind : ParamKind
  name : String
  tokens : String
deriving DecidableEq

/-- Model of `syn::Generics`: the parameter list and the optional where-clause
token string.  `syn`'s `ToTokens` for `Generics` prints only the angle-bracketed
parameter list, never the where-clause, which matches the crate storing the two
strings separately. -/
structure Generics where
  params : List GenericParam
  whereClause : Option String
deriving DecidableEq

/-- The string `generics.to_token_stream().to_string()` evaluates to: empty for
an empty parameter list, otherwise the comma-separated parameters between
angle brackets. -/
def Generics.tokenString (g : Generics) : String :=
  match g.params with
  | [] => ""
  | ps => "< " ++ String.intercalate " , " (ps.map GenericParam.tokens) ++ " >"

/-- Printing of one path segment: the identifier, followed by its argument
tokens when present. -/
def renderSeg (s : PathSeg) : String :=
  match s.arguments with
  | none => s.ident
  | some a => s.ident ++ " " ++ a

/-- Printing of a `syn::Path`: segments joined by `::` (with `to_string`'s
token spacing). -/
def renderPath : List PathSeg → String
  | [] => ""
  | [s] => renderSeg s
  | s :: rest => renderSeg s ++ " :: " ++ renderPath rest

/-- `ty_.path.segments.last_mut().unwrap().arguments = syn::PathArguments::None`:
erase the generic arguments of the last segment only. -/
def stripLastArgs : List PathSeg → List PathSeg
  | [] => []
  | [s] => [{ s with arguments := none }]
  | s :: rest => s :: stripLastArgs rest

/-- Model of `storage::Value`: the generics token string, the optional
where-clause token string, and the cache-field token strings in order. -/
structure Value where
  generics : String
  where_clause : Option String
  cache_fields : List String
deriving DecidableEq

/-- The registry state: `HashMap<TypeAsString, Value>` as an association list. -/
abbrev Storage := List (String × Value)

/-- `HashMap::contains_key`. -/
def containsKey (st : Storage) (k : String) : Bool :=
  st.any (fun p => p.1 == k)

/-- `HashMap::get`/lookup used by `remove`: the value bound to `k`, if any. -/
def mapLookup (st : Storage) (k : String) : Option Value :=
  (st.find? (fun p => p.1 == k)).map Prod.snd

/-- `HashMap::insert`: bind `k` to `v`, replacing any existing binding. -/
def mapInsert (st : Storage) (k : String) (v : Value) : Storage :=
  (k, v) :: st.filter (fun p => !(p.1 == k))

/-- The deletion effect of `HashMap::remove`. -/
def mapErase (st : Storage) (k : String) : Storage :=
  st.filter (fun p => !(p.1 == k))

/-- The error conditions raised by the two proc macros (`syn::Error` values,
identified by which check produced them; the genericsMismatch payload carries
the two conflicting signatures exactly as the formatted message does: stored
generics and where-clause first, presented ones second). -/
inductive Err where
  | unexpectedArguments
  | expectedImpl
  | unsupportedImplKind
  | missingReturnType (fnIdent : String)
  | expectedTypePath
  | expectedStruct
  | unnamedFields
  | duplicateRegistration
  | entryMissing
  | genericsMismatch (storedGenerics : String) (storedWhere : Option String)
      (givenGenerics : String) (givenWhere : Option String)
deriving DecidableEq

/-- `storage::register_cache_fields`: require a `Type::Path`, erase the last
segment's generic arguments, key on the resulting token string, and perform the
check-then-insert.  The returned storage is the registry after the call (it is
unchanged on every error path). -/
def register_cache_fields (ty : SynType) (generics : Generics)
    (cache_fields : List String) (st : Storage) : Except Err Storage :=
  match ty with
  | .nonPath _ => .error .expectedTypePath
  | .path segments =>
    let key := renderPath (stripLastArgs segments)
    let value : Value :=
      { generics := generics.tokenString
        where_clause := generics.whereClause
        cache_fields := cache_fields }
    if containsKey st key then
      .error .duplicateRegistration
    else
      .ok (mapInsert st key value)

/-- `storage::withdraw_cache_fields`: key on the bare identifier, remove the
entry first, then compare the generics and where-clause strings.  Note the
entry is already removed when the comparison fails, so a mismatch consumes it.
Returns the result together with the registry after the call. -/
def withdraw_cache_fields (ty : String) (generics : Generics) (st : Storage) :
    Except Err (List String) × Storage :=
  let key := ty
  match mapLookup st key with
  | none => (.error .entryMissing, st)
  | some value =>
    let st' := mapErase st key
    let generics_ := generics.tokenString
    let where_clause := generics.whereClause
    if generics_ = value.generics ∧ where_clause = value.where_clause then
      (.ok value.cache_fields, st')
    else
      (.error (.genericsMismatch value.generics value.where_clause
        generics_ where_clause), st')

/-- Model of a `syn::ImplItem::Fn`: its identifier, the signature tokens the
rewrite leaves untouched, the optional declared return type (`none` models
`ReturnType::Default`), and the body block's token string (braces included). -/
structure ImplItemFn where
  ident : String
  sigRest : String
  output : Option String
  block : String
deriving DecidableEq

/-- Model of `syn::ImplItem`: a function item or any other impl item. -/
inductive ImplItem where
  | fn (f : ImplItemFn)
  | other (tokens : String)
deriving DecidableEq

/-- The cache-field tokens `quote! { #ident: ::core::cell::OnceCell<#return_ty> }`
emitted for one rewritten method: this is the textual form of the slot
specification `(method name, value type)`. -/
def renderCacheField (methodName valueType : String) : String :=
  methodName ++ " : :: core :: cell :: OnceCell < " ++ valueType ++ " >"

/-- The rewritten body
`quote! {{ self.__cache_fields__.#ident.get_or_init(|| { #block }) }}`. -/
def memoBlock (ident block : String) : String :=
  "\x7b self . __cache_fields__ . " ++ ident ++
    " . get_or_init (| | \x7b " ++ block ++ " \x7d) \x7d"

/-- `rewrite_cached_method` from `src/lib.rs`: non-function items pass through
with no cache field; a function without a declared return type is an error; a
function with return type `T` gets return type `&T`, its body wrapped in the
`get_or_init` lookup, and contributes the cache field `ident: OnceCell<T>`. -/
def rewrite_cached_method (item : ImplItem) :
    Except Err (ImplItem × Option String) :=
  match item with
  | .other t => .ok (.other t, none)
  | .fn f =>
    match f.output with
    | none => .error (.missingReturnType f.ident)
    | some returnTy =>
      let newFn : ImplItemFn :=
        { f with
          block := memoBlock f.ident f.block
          output := some ("& " ++ returnTy) }
      .ok (.fn newFn, some (renderCacheField f.ident returnTy))

/-- The `collect::<syn::Result<Vec<_>>>()` over
`impl_.items.iter().map(rewrite_cached_method)`: stop at the first error. -/
def rewriteItems : List ImplItem → Except Err (List (ImplItem × Option String))
  | [] => .ok []
  | item :: rest =>
    match rewrite_cached_method item with
    | .error e => .error e
    | .ok r =>
      match rewriteItems rest with
      | .error e => .error e
      | .ok rs => .ok (r :: rs)

/-- Model of a `syn::ItemImpl` for the fields the macro reads: the optional
trait path (`none` for an inherent impl), the self type, the generics, and the
items. -/
structure ItemImpl where
  trait_ : Option String
  self_ty : SynType
  generics : Generics
  items : List ImplItem
deriving DecidableEq

/-- Model of `syn::Fields`. -/
inductive StructFields where
  | named (fields : List (String × String))
  | unnamed (tys : List String)
  | unit
deriving DecidableEq

/-- Model of a `syn::ItemStruct` for the fields the macro reads. -/
structure ItemStruct where
  ident : String
  generics : Generics
  fields : StructFields
deriving DecidableEq

/-- Model of `syn::Item`, restricted to the shapes the two macros distinguish. -/
inductive Item where
  | implBlock (i : ItemImpl)
  | structDef (s : ItemStruct)
  | otherItem (tokens : String)
deriving DecidableEq

/-- `impl_cached_method_aux` from `src/lib.rs`, paired with the registry state
after the call: reject non-empty macro arguments, non-`impl` items and trait
impls; rewrite every item (first error wins, registry untouched); then register
the collected cache fields under the self type's key. -/
def impl_cached_method_aux (args : String) (input : Item) (st : Storage) :
    Except Err ItemImpl × Storage :=
  if args ≠ "" then (.error .unexpectedArguments, st)
  else
    match input with
    | .structDef _ => (.error .expectedImpl, st)
    | .otherItem _ => (.error .expectedImpl, st)
    | .implBlock impl_ =>
      if impl_.trait_.isSome then (.error .unsupportedImplKind, st)
      else
        match rewriteItems impl_.items with
        | .error e => (.error e, st)
        | .ok results =>
          let items := results.map Prod.fst
          let fields := (results.map Prod.snd).filterMap id
          match register_cache_fields impl_.self_ty impl_.generics fields st with
          | .error e => (.error e, st)
          | .ok st' => (.ok { impl_ with items := items }, st')

/-- The synthesized companion struct
`struct #cache_fields_struct_name #ty_generics #where_clause { ... }`:
its name, its own parameter list (printed by `TypeGenerics`, so bare names),
its where-clause, and its field token strings in order (cache fields first,
then the `_phantom{i}` marker fields). -/
structure CompanionStruct where
  name : String
  paramNames : List String
  whereClause : Option String
  fields : List String
deriving DecidableEq

/-- The companion struct's name:
`format!("__struct_cache_field__{}CacheFields", ident)`. -/
def companionName (ident : String) : String :=
  "__struct_cache_field__" ++ ident ++ "CacheFields"

/-- `TypeGenerics` printing of a parameter-name list: empty when there are no
parameters, otherwise the names between angle brackets. -/
def renderTyGenerics (names : List String) : String :=
  match names with
  | [] => ""
  | ns => "< " ++ String.intercalate " , " ns ++ " >"

/-- The generic parameters the companion keeps:
`params.filter(|p| matches Type)`. -/
def keptTypeParams (g : Generics) : List GenericParam :=
  g.params.filter (fun p => p.kind == ParamKind.typeParam)

/-- One marker field
`quote! { #ident: ::core::marker::PhantomData<#param> }` with
`ident = _phantom{i}`. -/
def phantomField (i : Nat) (paramTokens : String) : String :=
  "_phantom" ++ toString i ++ " : :: core :: marker :: PhantomData < " ++
    paramTokens ++ " >"

/-- `add_cache_field_aux` from `src/lib.rs`, paired with the registry state
after the call: reject non-empty arguments, non-struct items and structs
without named fields; withdraw the entry keyed by the struct's bare identifier;
build the companion struct from the withdrawn cache fields plus one
`PhantomData` marker per retained type parameter; and append the
`__cache_fields__` field to the original struct. -/
def add_cache_field_aux (args : String) (input : Item) (st : Storage) :
    Except Err (ItemStruct × CompanionStruct) × Storage :=
  if args ≠ "" then (.error .unexpectedArguments, st)
  else
    match input with
    | .implBlock _ => (.error .expectedStruct, st)
    | .otherItem _ => (.error .expectedStruct, st)
    | .structDef struct_ =>
      match struct_.fields with
      | .unnamed _ => (.error .unnamedFields, st)
      | .unit => (.error .unnamedFields, st)
      | .named namedFields =>
        let cacheStructName := companionName struct_.ident
        match withdraw_cache_fields struct_.ident struct_.generics st with
        | (.error e, st') => (.error e, st')
        | (.ok cacheFields, st') =>
          let kept := keptTypeParams struct_.generics
          let phantomFields :=
            kept.enum.map (fun p => phantomField p.1 p.2.tokens)
          let tyGenerics := renderTyGenerics (kept.map GenericParam.name)
          let companion : CompanionStruct :=
            { name := cacheStructName
              paramNames := kept.map GenericParam.name
              whereClause := struct_.generics.whereClause
              fields := cacheFields ++ phantomFields }
          let newStruct : ItemStruct :=
            { struct_ with
              fields := .named (namedFields ++
                [("__cache_fields__", cacheStructName ++ tyGenerics)]) }
          (.ok (newStruct, companion), st')

/-- Model of `core::cell::OnceCell::get_or_init` (the external standard-library
collaborator the rewritten bodies call): the cell state is `Option α`; on an
empty cell the body is evaluated on the object state `s`, stored, and returned;
on a populated cell the stored value is returned and the body is not consulted.
The result is the returned value together with the new cell state. -/
def getOrInit {σ α : Type} (cell : Option α) (body : σ → α) (s : σ) :
    α × Option α :=
  match cell with
  | some v => (v, some v)
  | none => (body s, some (body s))

/-! Interleaving model of `register_cache_fields`'s registry accesses.

The function body takes the `STORAGE` lock twice: once for
`STORAGE.lock().unwrap().contains_key(&key)` (lines 53-58 of
`src/storage.rs`, whose guard is dropped at the end of the statement) and once
for `STORAGE.lock().unwrap().insert(key, value)` (line 60).  Each lock
acquisition is one atomic step; between the two steps other threads may act on
the registry.  A thread below is one in-flight `register_cache_fields` call,
reduced to its two registry accesses. -/

/-- Control point of one registering thread: before the `contains_key` check,
after a check that found the key absent, or finished (with success flag:
`true` for `Ok(())`, `false` for the duplicate-registration error). -/
inductive RegPc where
  | start
  | checkedAbsent
  | finished (success : Bool)
deriving DecidableEq

/-- One in-flight `register_cache_fields` call: its computed key, the value it
will insert, and its control point. -/
structure RegThread where
  key : String
  value : Value
  pc : RegPc
deriving DecidableEq

/-- One atomic registry access of a registering thread. -/
def regStep (st : Storage) (t : RegThread) : Storage × RegThread :=
  match t.pc with
  | .start =>
    if containsKey st t.key then (st, { t with pc := .finished false })
    else (st, { t with pc := .checkedAbsent })
  | .checkedAbsent => (mapInsert st t.key t.value, { t with pc := .finished true })
  | .finished _ => (st, t)

/-- Two registering threads sharing the registry. -/
structure RegSystem where
  st : Storage
  t1 : RegThread
  t2 : RegThread
deriving DecidableEq

/-- Let the scheduled thread (`true` = thread 1) perform one atomic step. -/
def sysStep (s : RegSystem) (which : Bool) : RegSystem :=
  if which then
    let r := regStep s.st s.t1
    { s with st := r.1, t1 := r.2 }
  else
    let r := regStep s.st s.t2
    { s with st := r.1, t2 := r.2 }

/-- Run a schedule, one atomic step per entry. -/
def runSched (s : RegSystem) : List Bool → RegSystem
  | [] => s
  | b :: rest => runSched (sysStep s b) rest

/-! Helper lemmas about the registry map operations. -/

theorem mapLookup_insert (st : Storage) (k : String) (v : Value) :
    mapLookup (mapInsert st k v) k = some v := by
  simp [mapLookup, mapInsert, List.find?]

theorem mapLookup_erase (st : Storage) (k : String) :
    mapLookup (mapErase st k) k = none := by
  have h : (st.filter (fun p => !(p.1 == k))).find? (fun p => p.1 == k) = none := by
    rw [List.find?_eq_none]
    intro p hp
    have := List.of_mem_filter hp
    simpa using this
  simp [mapLookup, mapErase, h]

theorem containsKey_erase (st : Storage) (k : String) :
    containsKey (mapErase st k) k = false := by
  simp only [containsKey, mapErase, List.any_eq_false]
  intro p hp
  have := List.of_mem_filter hp
  simpa using this

theorem mapErase_insert (st : Storage) (k : String) (v : Value) :
    mapErase (mapInsert st k v) k = mapErase st k := by
  simp [mapErase, mapInsert, List.filter_filter]

/-- Registering a single-segment self type (`impl Name` or `impl Name<...>`)
keys the entry on the bare name and, when the key is free, inserts the value
built from the generics and the cache fields. -/
theorem register_single (name : String) (args : Option String) (g : Generics)
    (fs : List String) (st : Storage) (h : containsKey st name = false) :
    register_cache_fields (.path [⟨name, args⟩]) g fs st =
      .ok (mapInsert st name
        { generics := g.tokenString, where_clause := g.whereClause
          cache_fields := fs }) := by
  simp [register_cache_fields, stripLastArgs, renderPath, renderSeg, h]

/-- Withdrawing right after a matching insert succeeds with the stored cache
fields and erases the entry. -/
theorem withdraw_insert_matching (name : String) (g : Generics)
    (fs : List String) (st : Storage) :
    withdraw_cache_fields name g
      (mapInsert st name
        { generics := g.tokenString, where_clause := g.whereClause
          cache_fields := fs }) =
      (.ok fs, mapErase st name) := by
  simp [withdraw_cache_fields, mapLookup_insert, mapErase_insert]

/-- Unfolded case analysis of `withdraw_cache_fields`. -/
theorem withdraw_spec (k : String) (g : Generics) (st : Storage) :
    withdraw_cache_fields k g st =
      match mapLookup st k with
      | none => (.error .entryMissing, st)
      | some value =>
        if g.tokenString = value.generics ∧ g.whereClause = value.where_clause then
          (.ok value.cache_fields, mapErase st k)
        else
          (.error (.genericsMismatch value.generics value.where_clause
            g.tokenString g.whereClause), mapErase st k) := rfl

/-- A key that is not registered is not found. -/
theorem mapLookup_eq_none_of_not_contains (st : Storage) (k : String)
    (h : containsKey st k = false) : mapLookup st k = none := by
  simp only [containsKey, List.any_eq_false] at h
  have hf : st.find? (fun p => p.1 == k) = none :=
    List.find?_eq_none.mpr h
  simp [mapLookup, hf]

/-- On a registry that does not hold the key, withdrawing fails with
EntryMissing and changes nothing. -/
theorem withdraw_not_contained (k : String) (g : Generics) (st : Storage)
    (h : containsKey st k = false) :
    withdraw_cache_fields k g st = (.error .entryMissing, st) := by
  rw [withdraw_spec, mapLookup_eq_none_of_not_contains st k h]

/-- Withdrawing from a registry whose entry for the key was just erased fails
with EntryMissing and changes nothing. -/
theorem withdraw_on_erased (k : String) (g2 : Generics) (st : Storage) :
    withdraw_cache_fields k g2 (mapErase st k) =
      (.error .entryMissing, mapErase st k) := by
  rw [withdraw_spec, mapLookup_erase]

/-- Any withdraw outcome other than EntryMissing has erased the entry: the code
calls `map.remove(&key)` before comparing the generics. -/
theorem withdraw_erases_unless_missing (k : String) (g : Generics)
    (st st' : Storage) (r : Except Err (List String))
    (h : withdraw_cache_fields k g st = (r, st'))
    (hr : r ≠ .error .entryMissing) : st' = mapErase st k := by
  rw [withdraw_spec] at h
  cases hm : mapLookup st k with
  | none =>
    rw [hm] at h
    simp only at h
    exact absurd (congrArg Prod.fst h).symm (by simpa using hr)
  | some v =>
    rw [hm] at h
    simp only at h
    split_ifs at h with hg
    · exact (congrArg Prod.snd h).symm
    · exact (congrArg Prod.snd h).symm

/-- Every error `rewrite_cached_method` can raise is a MissingReturnType. -/
theorem rewrite_error_shape (item : ImplItem) (e : Err)
    (h : rewrite_cached_method item = .error e) :
    ∃ n, e = .missingReturnType n := by
  cases item with
  | other t => simp [rewrite_cached_method] at h
  | fn f =>
    cases ho : f.output with
    | none =>
      refine ⟨f.ident, ?_⟩
      simp [rewrite_cached_method, ho] at h
      exact h.symm
    | some ty => simp [rewrite_cached_method, ho] at h

/-- If some item of the block is a function without a declared return type,
collecting the rewrites fails with a MissingReturnType error. -/
theorem rewriteItems_missing_return (items : List ImplItem)
    (h : ∃ f : ImplItemFn, ImplItem.fn f ∈ items ∧ f.output = none) :
    ∃ n, rewriteItems items = .error (.missingReturnType n) := by
  induction items with
  | nil =>
    rcases h with ⟨f, hf, _⟩
    cases hf
  | cons item rest ih =>
    rcases h with ⟨f, hf, ho⟩
    rcases List.mem_cons.mp hf with hhead | htail
    · cases hhead.symm
      exact ⟨f.ident, by simp [rewriteItems, rewrite_cached_method, ho]⟩
    · cases hr : rewrite_cached_method item with
      | error e =>
        obtain ⟨n, hn⟩ := rewrite_error_shape item e hr
        exact ⟨n, by simp [rewriteItems, hr, hn]⟩
      | ok r =>
        obtain ⟨n, hn⟩ := ih ⟨f, htail, ho⟩
        exact ⟨n, by simp [rewriteItems, hr, hn]⟩

/-- The `" :: "` separator of a multi-segment path puts a colon into the
rendered key. -/
theorem colon_mem_renderPath (l : List PathSeg) (h : 2 ≤ l.length) :
    ':' ∈ (renderPath l).data := by
  match l with
  | a :: b :: t =>
    show ':' ∈ (renderSeg a ++ " :: " ++ renderPath (b :: t)).data
    simp only [String.data_append, List.mem_append]
    exact Or.inl (Or.inr (by decide))

/-- Erasing the last segment's generic arguments does not change the number of
segments. -/
theorem length_stripLastArgs (l : List PathSeg) :
    (stripLastArgs l).length = l.length := by
  induction l with
  | nil => rfl
  | cons a t ih =>
    cases t with
    | nil => rfl
    | cons b t2 =>
      show (a :: stripLastArgs (b :: t2)).length = (a :: b :: t2).length
      simp only [List.length_cons, ih]

/-- C1: for every item of an annotated inherent method block,
`rewrite_cached_method` passes a non-function item through unchanged with no
slot; a function with declared return type `T` keeps its other signature parts,
gets return type `&T`, gets its body replaced by the slot lookup
`self.__cache_fields__.<name>.get_or_init(|| { <original body> })`, and
contributes exactly the slot specification `<name>: OnceCell<T>`; and the
`get_or_init` lookup the new body performs evaluates the original body, stores
and returns the result when the slot is empty, and returns the stored value
without consulting the body when the slot is populated. -/
theorem c1_rewrite_cached_method (item : ImplItem) :
    (∀ t : String, item = .other t →
      rewrite_cached_method item = .ok (item, none)) ∧
    (∀ (f : ImplItemFn) (ty : String), item = .fn f → f.output = some ty →
      rewrite_cached_method item =
        .ok (.fn { f with
              output := some ("& " ++ ty)
              block := memoBlock f.ident f.block },
          some (renderCacheField f.ident ty))) ∧
    (∀ (σ α : Type) (body : σ → α) (s : σ),
      getOrInit (none : Option α) body s = (body s, some (body s))) ∧
    (∀ (σ α : Type) (v : α) (body : σ → α) (s : σ),
      getOrInit (some v) body s = (v, some v)) := by
  refine ⟨?_, ?_, ?_, ?_⟩
  · rintro t rfl
    rfl
  · rintro f ty rfl h
    simp [rewrite_cached_method, h]
  · intro σ α body s
    rfl
  · intro σ α v body s
    rfl

theorem c1_rewrite_cached_method_witness :
    rewrite_cached_method
        (.fn ⟨"two_times_x", "pub fn (& self)", some "u64", "2 * self . x"⟩) =
      .ok (.fn ⟨"two_times_x", "pub fn (& self)", some "& u64",
            memoBlock "two_times_x" "2 * self . x"⟩,
        some (renderCacheField "two_times_x" "u64")) :=
  (c1_rewrite_cached_method
      (.fn ⟨"two_times_x", "pub fn (& self)", some "u64", "2 * self . x"⟩)).2.1
    _ "u64" rfl rfl

/-- C2: an insert (`register_cache_fields` with a single-segment self-type
path) that succeeds, immediately followed by a withdraw with the same key and
a textually matching generic signature (equal parameter-list string and equal
where-clause string), succeeds and returns exactly the cache-field strings that
were inserted, in insertion order. -/
theorem c2_insert_then_withdraw (name : String) (args : Option String)
    (g g2 : Generics) (slots : List String) (st st' : Storage)
    (hgen : g2.tokenString = g.tokenString)
    (hwc : g2.whereClause = g.whereClause)
    (h : register_cache_fields (.path [⟨name, args⟩]) g slots st = .ok st') :
    withdraw_cache_fields name g2 st' = (.ok slots, mapErase st name) := by
  simp only [register_cache_fields, stripLastArgs, renderPath, renderSeg] at h
  split at h
  · exact absurd h (by simp)
  · have h2 : st' = mapInsert st name
        { generics := g.tokenString, where_clause := g.whereClause
          cache_fields := slots } := by
      injection h with h1
      exact h1.symm
    rw [h2, withdraw_spec, mapLookup_insert]
    simp only
    rw [if_pos ⟨hgen, hwc⟩, mapErase_insert]

theorem c2_insert_then_withdraw_witness :
    withdraw_cache_fields "Hoge" ⟨[], none⟩
        [("Hoge", ⟨"", none, [renderCacheField "two_times_x" "u64"]⟩)] =
      (.ok [renderCacheField "two_times_x" "u64"], []) :=
  c2_insert_then_withdraw "Hoge" none ⟨[], none⟩ ⟨[], none⟩
    [renderCacheField "two_times_x" "u64"] [] _ rfl rfl rfl

/-- C7: after a withdraw for a key succeeds, a second withdraw for the same
key, with any generics, fails with EntryMissing (and leaves the registry
unchanged). -/
theorem c7_second_withdraw_entry_missing (k : String) (g g2 : Generics)
    (st st' : Storage) (fs : List String)
    (h : withdraw_cache_fields k g st = (.ok fs, st')) :
    withdraw_cache_fields k g2 st' = (.error .entryMissing, st') := by
  have hst' : st' = mapErase st k :=
    withdraw_erases_unless_missing k g st st' (.ok fs) h (by simp)
  rw [hst']
  exact withdraw_on_erased k g2 st

theorem c7_second_withdraw_entry_missing_witness :
    withdraw_cache_fields "Hoge" ⟨[], some "where T : Clone"⟩ [] =
      (.error .entryMissing, []) :=
  c7_second_withdraw_entry_missing "Hoge" ⟨[], none⟩
    ⟨[], some "where T : Clone"⟩
    [("Hoge", ⟨"", none, [renderCacheField "two_times_x" "u64"]⟩)] []
    [renderCacheField "two_times_x" "u64"] rfl

/-- C8: a withdraw whose generics agree with the stored parameter-list string
but whose where-clause text differs fails with GenericsMismatch, and the error
carries both the stored signature (generics and where-clause) and the presented
one. -/
theorem c8_where_clause_mismatch (k : String) (g : Generics) (st : Storage)
    (v : Value) (hl : mapLookup st k = some v)
    (hg : v.generics = g.tokenString) (hw : v.where_clause ≠ g.whereClause) :
    withdraw_cache_fields k g st =
      (.error (.genericsMismatch v.generics v.where_clause
        g.tokenString g.whereClause), mapErase st k) := by
  have hcond : ¬ (g.tokenString = v.generics ∧
      g.whereClause = v.where_clause) := by
    intro hc
    exact hw hc.2.symm
  rw [withdraw_spec, hl]
  simp only [if_neg hcond]

theorem c8_where_clause_mismatch_witness :
    withdraw_cache_fields "Hoge" ⟨[], some "where T : Clone"⟩
        [("Hoge", ⟨"", none, [renderCacheField "two_times_x" "u64"]⟩)] =
      (.error (.genericsMismatch "" none "" (some "where T : Clone")), []) :=
  c8_where_clause_mismatch "Hoge" ⟨[], some "where T : Clone"⟩
    [("Hoge", ⟨"", none, [renderCacheField "two_times_x" "u64"]⟩)]
    ⟨"", none, [renderCacheField "two_times_x" "u64"]⟩ rfl rfl (by decide)

/-- C3 counterexample: for a struct with one const generic parameter and no
type parameters, the claim requires one zero-sized marker field for the
filtered-out parameter, but the synthesized companion holds only the cache
field and no `_phantom` marker at all: markers are emitted per retained type
parameter, not per filtered-out lifetime/const parameter. -/
theorem c3_marker_counterexample :
    (add_cache_field_aux "" (.structDef ⟨"Hoge",
        ⟨[⟨.constParam, "N", "const N : usize"⟩], none⟩,
        .named [("x", "u64")]⟩)
      [("Hoge", ⟨"< const N : usize >", none,
        [renderCacheField "two_times_x" "u64"]⟩)]).1 =
      .ok (⟨"Hoge", ⟨[⟨.constParam, "N", "const N : usize"⟩], none⟩,
            .named [("x", "u64"),
              ("__cache_fields__", "__struct_cache_field__HogeCacheFields")]⟩,
          ⟨"__struct_cache_field__HogeCacheFields", [], none,
            [renderCacheField "two_times_x" "u64"]⟩) ∧
    phantomField 0 "const N : usize" ∉ [renderCacheField "two_times_x" "u64"] ∧
    List.countP (fun p => !(p.kind == ParamKind.typeParam))
      [(⟨ParamKind.constParam, "N", "const N : usize"⟩ : GenericParam)] = 1 := by
  refine ⟨rfl, by decide, by decide⟩

/-- C3 (amended): after a successful withdrawal, the companion struct's name is
the pure function `__struct_cache_field__<Name>CacheFields` of the owning
type's name; its fields are the returned cache fields, in the order supplied,
followed by one `PhantomData` marker field per RETAINED type parameter (there
are no marker fields for the filtered-out lifetime/const parameters); and its
own parameter list is the owning type's type parameters only.  The owning
struct gains the `__cache_fields__` field referencing the companion. -/
theorem c3_companion_shape (name : String) (g : Generics)
    (nf : List (String × String)) (st st' : Storage)
    (cacheFields : List String)
    (h : withdraw_cache_fields name g st = (.ok cacheFields, st')) :
    add_cache_field_aux "" (.structDef ⟨name, g, .named nf⟩) st =
      (.ok ({ ident := name, generics := g,
              fields := .named (nf ++ [("__cache_fields__",
                companionName name ++
                  renderTyGenerics ((keptTypeParams g).map GenericParam.name))]) },
            { name := companionName name
              paramNames := (keptTypeParams g).map GenericParam.name
              whereClause := g.whereClause
              fields := cacheFields ++
                (keptTypeParams g).enum.map
                  (fun p => phantomField p.1 p.2.tokens) }),
       st') := by
  simp [add_cache_field_aux, h]

theorem c3_companion_shape_witness :
    add_cache_field_aux "" (.structDef ⟨"Hoge",
        ⟨[⟨.typeParam, "T", "T"⟩, ⟨.constParam, "N", "const N : usize"⟩], none⟩,
        .named [("x", "u64")]⟩)
      [("Hoge", ⟨"< T , const N : usize >", none,
        [renderCacheField "two_times_x" "u64"]⟩)] =
      (.ok ({ ident := "Hoge",
              generics := ⟨[⟨.typeParam, "T", "T"⟩,
                ⟨.constParam, "N", "const N : usize"⟩], none⟩,
              fields := .named [("x", "u64"), ("__cache_fields__",
                companionName "Hoge" ++ renderTyGenerics ["T"])] },
            { name := companionName "Hoge"
              paramNames := ["T"]
              whereClause := none
              fields := [renderCacheField "two_times_x" "u64",
                phantomField 0 "T"] }),
       []) :=
  c3_companion_shape "Hoge"
    ⟨[⟨.typeParam, "T", "T"⟩, ⟨.constParam, "N", "const N : usize"⟩], none⟩
    [("x", "u64")]
    [("Hoge", ⟨"< T , const N : usize >", none,
      [renderCacheField "two_times_x" "u64"]⟩)]
    [] [renderCacheField "two_times_x" "u64"] rfl

/-- C4 counterexample: two method blocks written `impl Hoge` in different
scopes produce the identical registry key (the key is the textual self-type
path; no scope information enters it), so after the first registration the
second one fails with DuplicateRegistration instead of succeeding
independently. -/
theorem c4_not_scope_qualified_counterexample :
    register_cache_fields (.path [⟨"Hoge", none⟩]) ⟨[], none⟩
        [renderCacheField "two_times_x" "u64"] [] =
      .ok [("Hoge", ⟨"", none, [renderCacheField "two_times_x" "u64"]⟩)] ∧
    register_cache_fields (.path [⟨"Hoge", none⟩]) ⟨[], none⟩
        [renderCacheField "three_times_y" "u64"]
        [("Hoge", ⟨"", none, [renderCacheField "two_times_x" "u64"]⟩)] =
      .error .duplicateRegistration := by
  refine ⟨rfl, rfl⟩

/-- C4 (amended): registry keys are the textual self-type path, not
scope-qualified, so two same-named types from different scopes share one key;
their register/embed pairs nevertheless both succeed when each registration is
withdrawn before the next registration happens (the source order of the
`pass_modules` fixture), each withdraw returning its own slots. -/
theorem c4_same_name_sequential_pairs (name : String) (a1 a2 : Option String)
    (g1 g2 : Generics) (s1 s2 : List String) (st : Storage)
    (h : containsKey st name = false) :
    ∃ st1 st2 st3 st4,
      register_cache_fields (.path [⟨name, a1⟩]) g1 s1 st = .ok st1 ∧
      withdraw_cache_fields name g1 st1 = (.ok s1, st2) ∧
      register_cache_fields (.path [⟨name, a2⟩]) g2 s2 st2 = .ok st3 ∧
      withdraw_cache_fields name g2 st3 = (.ok s2, st4) := by
  refine ⟨mapInsert st name ⟨g1.tokenString, g1.whereClause, s1⟩,
    mapErase st name,
    mapInsert (mapErase st name) name ⟨g2.tokenString, g2.whereClause, s2⟩,
    mapErase (mapErase st name) name, ?_, ?_, ?_, ?_⟩
  · exact register_single name a1 g1 s1 st h
  · exact withdraw_insert_matching name g1 s1 st
  · exact register_single name a2 g2 s2 (mapErase st name)
      (containsKey_erase st name)
  · exact withdraw_insert_matching name g2 s2 (mapErase st name)

theorem c4_same_name_sequential_pairs_witness :
    ∃ st1 st2 st3 st4,
      register_cache_fields (.path [⟨"Hoge", none⟩]) ⟨[], none⟩
        [renderCacheField "two_times_x" "u64"] [] = .ok st1 ∧
      withdraw_cache_fields "Hoge" ⟨[], none⟩ st1 =
        (.ok [renderCacheField "two_times_x" "u64"], st2) ∧
      register_cache_fields (.path [⟨"Hoge", none⟩]) ⟨[], none⟩
        [renderCacheField "three_times_y" "u64"] st2 = .ok st3 ∧
      withdraw_cache_fields "Hoge" ⟨[], none⟩ st3 =
        (.ok [renderCacheField "three_times_y" "u64"], st4) :=
  c4_same_name_sequential_pairs "Hoge" none none ⟨[], none⟩ ⟨[], none⟩
    [renderCacheField "two_times_x" "u64"]
    [renderCacheField "three_times_y" "u64"] [] rfl

/-- C5 counterexample: a withdraw with mismatching generics fails with
GenericsMismatch but consumes the entry (`map.remove` runs before the
comparison), so the second identical attempt fails with EntryMissing — a
different error, not "identically with GenericsMismatch". -/
theorem c5_mismatch_retry_counterexample :
    withdraw_cache_fields "Hoge" ⟨[⟨.typeParam, "U", "U"⟩], none⟩
        [("Hoge", ⟨"< T >", none, [renderCacheField "two_times_x" "u64"]⟩)] =
      (.error (.genericsMismatch "< T >" none "< U >" none), []) ∧
    withdraw_cache_fields "Hoge" ⟨[⟨.typeParam, "U", "U"⟩], none⟩ [] =
      (.error .entryMissing, []) ∧
    Err.entryMissing ≠ Err.genericsMismatch "< T >" none "< U >" none := by
  refine ⟨rfl, rfl, by decide⟩

/-- C5 (amended): after a withdraw for a registered key fails with
GenericsMismatch, the entry has been consumed, so a second attempt for the same
key — with the same non-matching signature or any other — fails with
EntryMissing rather than failing identically. -/
theorem c5_second_attempt_entry_missing (k : String) (g g2 : Generics)
    (st st' : Storage) (sg : String) (sw : Option String) (pg : String)
    (pw : Option String)
    (h : withdraw_cache_fields k g st =
      (.error (.genericsMismatch sg sw pg pw), st')) :
    withdraw_cache_fields k g2 st' = (.error .entryMissing, st') := by
  have hst' : st' = mapErase st k :=
    withdraw_erases_unless_missing k g st st'
      (.error (.genericsMismatch sg sw pg pw)) h (by simp)
  rw [hst']
  exact withdraw_on_erased k g2 st

theorem c5_second_attempt_entry_missing_witness :
    withdraw_cache_fields "Hoge" ⟨[⟨.typeParam, "U", "U"⟩], some "where"⟩ [] =
      (.error .entryMissing, []) :=
  c5_second_attempt_entry_missing "Hoge" ⟨[⟨.typeParam, "U", "U"⟩], none⟩
    ⟨[⟨.typeParam, "U", "U"⟩], some "where"⟩
    [("Hoge", ⟨"< T >", none, [renderCacheField "two_times_x" "u64"]⟩)] []
    "< T >" none "< U >" none rfl

/-- C6: a method block containing a function without a declared return type
makes `impl_cached_method_aux` fail with MissingReturnType and leaves the
registry unchanged, so a subsequent withdraw for that type's (still
unregistered) key fails with EntryMissing. -/
theorem c6_missing_return_type (impl_ : ItemImpl) (st : Storage)
    (htrait : impl_.trait_ = none)
    (h : ∃ f : ImplItemFn, ImplItem.fn f ∈ impl_.items ∧ f.output = none) :
    (∃ n, impl_cached_method_aux "" (.implBlock impl_) st =
      (.error (.missingReturnType n), st)) ∧
    (∀ k g2, containsKey st k = false →
      withdraw_cache_fields k g2 st = (.error .entryMissing, st)) := by
  constructor
  · obtain ⟨n, hn⟩ := rewriteItems_missing_return impl_.items h
    exact ⟨n, by simp [impl_cached_method_aux, htrait, hn]⟩
  · intro k g2 hk
    exact withdraw_not_contained k g2 st hk

theorem c6_missing_return_type_witness :
    (∃ n, impl_cached_method_aux "" (.implBlock ⟨none, .path [⟨"Hoge", none⟩],
        ⟨[], none⟩, [.fn ⟨"broken", "fn (& self)", none, "\x7b \x7d"⟩]⟩) [] =
      (.error (.missingReturnType n), [])) ∧
    (∀ k g2, containsKey ([] : Storage) k = false →
      withdraw_cache_fields k g2 [] = (.error .entryMissing, [])) :=
  c6_missing_return_type
    ⟨none, .path [⟨"Hoge", none⟩], ⟨[], none⟩,
      [.fn ⟨"broken", "fn (& self)", none, "\x7b \x7d"⟩]⟩ [] rfl
    ⟨⟨"broken", "fn (& self)", none, "\x7b \x7d"⟩,
      List.mem_singleton.mpr rfl, rfl⟩

/-- C9: the registration's `contains_key` check and its `insert` are two
separate critical sections (the `STORAGE.lock()` guard is dropped between
them), so two interleaved registrations for the same key "Hoge" — schedule:
check 1, check 2, insert 1, insert 2 — BOTH finish successfully, and the second
insert silently replaces the first thread's entry in the registry.  This
contradicts the claimed atomic check-then-insert, under which at most one of
two concurrent inserts for one key can succeed. -/
theorem c9_interleaved_registrations_both_succeed :
    runSched
      ⟨[],
       ⟨"Hoge", ⟨"", none, [renderCacheField "two_times_x" "u64"]⟩, .start⟩,
       ⟨"Hoge", ⟨"", none, [renderCacheField "three_times_y" "u64"]⟩, .start⟩⟩
      [true, false, true, false] =
      ⟨[("Hoge", ⟨"", none, [renderCacheField "three_times_y" "u64"]⟩)],
       ⟨"Hoge", ⟨"", none, [renderCacheField "two_times_x" "u64"]⟩,
         .finished true⟩,
       ⟨"Hoge", ⟨"", none, [renderCacheField "three_times_y" "u64"]⟩,
         .finished true⟩⟩ := by
  decide

/-- Sanity check tying the interleaving model to the sequential function: a
registering thread that runs its two steps without interference has exactly the
`register_cache_fields` effect — it fails without mutating the registry when
the key is present, and inserts and succeeds when it is absent. -/
theorem regThread_alone (st : Storage) (k : String) (v : Value) :
    (regStep (regStep st ⟨k, v, .start⟩).1 (regStep st ⟨k, v, .start⟩).2).1 =
      (if containsKey st k then st else mapInsert st k v) ∧
    (regStep (regStep st ⟨k, v, .start⟩).1 (regStep st ⟨k, v, .start⟩).2).2.pc =
      .finished (!containsKey st k) := by
  by_cases h : containsKey st k <;> simp [regStep, h]

/-- C10: registering a method block whose self type is a multi-segment path
stores the entry under the rendered path (with the last segment's generic
arguments removed), which contains `::`; the paired struct embedding withdraws
under the bare struct identifier, which as a valid identifier contains no
colon, so it can never find the entry and fails with EntryMissing. -/
theorem c10_multi_segment_entry_missing (s1 s2 : PathSeg)
    (rest : List PathSeg) (g g2 : Generics) (fs : List String)
    (structIdent : String) (hid : ':' ∉ structIdent.data) :
    ∃ st',
      register_cache_fields (.path (s1 :: s2 :: rest)) g fs [] = .ok st' ∧
      withdraw_cache_fields structIdent g2 st' =
        (.error .entryMissing, st') := by
  have hne : renderPath (stripLastArgs (s1 :: s2 :: rest)) ≠ structIdent := by
    intro hcontra
    apply hid
    rw [← hcontra]
    apply colon_mem_renderPath
    rw [length_stripLastArgs]
    simp
  have hkey : (renderPath (stripLastArgs (s1 :: s2 :: rest)) == structIdent)
      = false := beq_eq_false_iff_ne.mpr hne
  refine ⟨[(renderPath (stripLastArgs (s1 :: s2 :: rest)),
    ⟨g.tokenString, g.whereClause, fs⟩)], ?_, ?_⟩
  · simp [register_cache_fields, containsKey, mapInsert]
  · rw [withdraw_spec]
    simp [mapLookup, List.find?, hkey]

theorem c10_multi_segment_entry_missing_witness :
    ∃ st',
      register_cache_fields
        (.path [⟨"some_module", none⟩, ⟨"Foo", none⟩]) ⟨[], none⟩
        [renderCacheField "two_times_x" "u64"] [] = .ok st' ∧
      withdraw_cache_fields "Foo" ⟨[], none⟩ st' =
        (.error .entryMissing, st') :=
  c10_multi_segment_entry_missing ⟨"some_module", none⟩ ⟨"Foo", none⟩ []
    ⟨[], none⟩ ⟨[], none⟩ [renderCacheField "two_times_x" "u64"] "Foo"
    (by decide)

end StructCacheField
